import Mathlib

/-!
Shallow embedding of the agent-orchestration core of the deep-researcher
repository (backend/chat/{nodes,research_graph,tools}.py), together with
theorems checking the natural-language specification against it.

Python dict/JSON values are modelled by `PyVal`; Python dicts by association
lists (`Dict`).  LLM invocations and web searches are external collaborators:
they enter the definitions as explicit oracle arguments.  Interrupt points are
split into a payload-construction function and a resume function, mirroring
the two halves of each Python node around its `interrupt(...)` call.
-/

namespace DeepResearcher

/-- JSON-ish Python value (None, str, numbers, list, dict). Numbers are
modelled by rationals. -/
inductive PyVal where
  | null : PyVal
  | str : String → PyVal
  | num : Rat → PyVal
  | bool : Bool → PyVal
  | arr : List PyVal → PyVal
  | obj : List (String × PyVal) → PyVal

/-- A Python dict, as an association list (insertion order preserved,
as in CPython). -/
abbrev Dict := List (String × PyVal)

/-- Python `==` between a value and a string: only a string can compare
equal to a string (cross-type `==` is `False` in Python). -/
def pyValIsStrEq (v : PyVal) (s : String) : Bool :=
  match v with
  | .str t => t == s
  | _ => false

/-- Python truthiness of a value. -/
def pyTruthy (v : PyVal) : Bool :=
  match v with
  | .null => false
  | .str s => !(s == "")
  | .num q => !(q == 0)
  | .bool b => b
  | .arr xs => !xs.isEmpty
  | .obj fs => !fs.isEmpty

/-- Truthiness of an optional dict (Python `if report:` with `report` either
`None` or a dict). -/
def dictTruthy (d : Option Dict) : Bool :=
  match d with
  | some l => !l.isEmpty
  | none => false

/-- Python `d.update(e)` on dicts as association lists: keys present in `d`
keep their position and take the value from `e` when `e` has the key; keys of
`e` absent from `d` are appended in order. -/
def dictUpdate (d e : Dict) : Dict :=
  (d.map fun kv =>
    match e.lookup kv.1 with
    | some v => (kv.1, v)
    | none => kv)
  ++ e.filter fun kv => (d.lookup kv.1).isNone

-- ## Messages and tool calls (langchain message model, as used by nodes.py)

/-- One `{id, name, args}` tool call emitted by the reasoning model. -/
structure ToolCall where
  name : String
  id : String
  args : Dict

/-- A conversation message; `tool_calls` is empty for messages that carry
none (covering the Python `hasattr`/empty-list check in one test). -/
structure Message where
  role : String
  content : String
  tool_calls : List ToolCall

/-- The parent graph state fields `should_continue` and the save path read. -/
structure AgentState where
  messages : List Message
  research_reports : List Dict
  pending_save : Option Dict

-- ## nodes.py: should_continue (router after the agent node)

/-- The `should_continue` from nodes.py.  Reads the last message; if it carries
tool calls, sentinel names win in priority order `deep_research`, then
`save_report`, else real tools; with no tool calls the run ends.  `none`
models the `IndexError` Python would raise on an empty message list. -/
def should_continue (state : AgentState) : Option String :=
  match state.messages.getLast? with
  | none => none
  | some last_message =>
    if !last_message.tool_calls.isEmpty then
      let tool_names := last_message.tool_calls.map (·.name)
      if tool_names.contains "deep_research" then some "deep_research"
      else if tool_names.contains "save_report" then some "save_confirm"
      else some "tools"
    else some "end"

-- ## research_graph.py: depth map and orchestrate_node

/-- The `DEPTH_MAP = {"quick": 3, "standard": 5, "deep": 8}`. -/
def DEPTH_MAP : List (String × Nat) := [("quick", 3), ("standard", 5), ("deep", 8)]

/-- The `DEPTH_MAP.get(depth, 5)`. -/
def depthWidth (depth : String) : Nat := (DEPTH_MAP.lookup depth).getD 5

/-- One structured `{query, search_focus, context}` explorer instruction. -/
structure ExplorerInstruction where
  query : String
  search_focus : String
  context : String

/-- The `orchestrate_node`: `num_explorers = min(len(topics), DEPTH_MAP.get(depth, 5))`;
the structured-output LLM is an oracle returning `llm_instructions`, and the
code keeps `result.instructions[:num_explorers]`.  Returns the
`explorer_instructions` update and the new `status`. -/
def orchestrate_node (clarified_topics : List String) (depth : String)
    (llm_instructions : List ExplorerInstruction) :
    List ExplorerInstruction × String :=
  let num_explorers := min clarified_topics.length (depthWidth depth)
  (llm_instructions.take num_explorers, "orchestrated")

-- ## research_graph.py: clarify_node (payload half and resume half)

/-- The `HITLOption` schema (id, label, description, selected). -/
structure HITLOption where
  id : String
  label : String
  description : String := ""
  selected : Bool := false

/-- The `HITLPayload` schema: type tag, texts, optional options, optional report
(the report is carried as its dict dump). -/
structure HITLPayload where
  hitl_type : String
  title : String
  message : String
  options : Option (List HITLOption) := none
  report : Option Dict := none

/-- The checkbox options clarify_node builds: id `topic_i`, label the
suggested sub-topic, preselected. -/
def clarify_options (subtopics : List String) : List HITLOption :=
  subtopics.enum.map fun it =>
    { id := "topic_" ++ toString it.1, label := it.2, selected := true }

/-- The checkbox payload surfaced by clarify_node before its interrupt;
`subtopics` is the structured-output oracle result for the sub-topic
suggestion call. -/
def clarify_payload (topic : String) (subtopics : List String) : HITLPayload :=
  { hitl_type := "checkbox"
    title := "Select Research Topics"
    message := "The following sub-topics were identified for " ++ topic ++
      ". Select the ones you would like to research:"
    options := some (clarify_options subtopics) }

/-- The resume half of clarify_node: the resume value is taken as a list of
selected ids when it is a list (else the empty list); labels of options whose
id occurs in it are kept, and if nothing was selected all suggested
sub-topics are used.  Returns (`clarified_topics`, `status`). -/
def clarify_resume (subtopics : List String) (user_response : PyVal) :
    List String × String :=
  let options := clarify_options subtopics
  let selected_ids : List PyVal :=
    match user_response with
    | .arr xs => xs
    | _ => []
  let selected_topics :=
    (options.filter fun opt => selected_ids.any fun v => pyValIsStrEq v opt.id).map
      (·.label)
  let selected_topics := if selected_topics.isEmpty then subtopics else selected_topics
  (selected_topics, "clarified")

-- ## research_graph.py: explorer_node

/-- The `SearchResult` schema with its defaults. Scores are floats, modelled by
rationals. -/
structure SearchResult where
  url : String := ""
  title : String := ""
  content : String := ""
  score : Rat := 0

/-- One raw record from the Tavily search collaborator (each field read with
`r.get(key, default)`). -/
structure RawResult where
  url : Option String := none
  title : Option String := none
  content : Option String := none
  score : Option Rat := none

/-- What the web-search collaborator did: returned a list, returned a bare
string, returned something else, or raised an exception with message `e`. -/
inductive SearchOutcome where
  | resultList (rs : List RawResult)
  | resultStr (s : String)
  | resultOther
  | raised (e : String)

/-- The `explorer_node`: normalizes a list result field-by-field (title falling
back to the query), wraps a bare-string result, yields `[]` for any other
shape, and converts an exception into a single synthetic
`Search error: ...` entry.  Returns the `search_results` contribution. -/
def explorer_node (query : String) (outcome : SearchOutcome) : List SearchResult :=
  match outcome with
  | .resultList rs =>
    rs.map fun r =>
      { url := r.url.getD ""
        title := r.title.getD query
        content := r.content.getD ""
        score := r.score.getD 0 }
  | .resultStr s => [{ title := query, content := s }]
  | .resultOther => []
  | .raised e => [{ title := query, content := "Search error: " ++ e }]

-- ## research_graph.py: synthesize_node and review_node

/-- The `ResearchFinding` schema. -/
structure ResearchFinding where
  insight : String
  evidence : String
  sources : List String

/-- The `ResearchReport` schema (structured-output class). -/
structure ResearchReport where
  title : String
  summary : String
  key_findings : List ResearchFinding
  sources : List String
  tags : List String
  methodology : String

/-- The `finding.model_dump()`. -/
def findingToDict (f : ResearchFinding) : PyVal :=
  .obj [("insight", .str f.insight), ("evidence", .str f.evidence),
        ("sources", .arr (f.sources.map .str))]

/-- The `report.model_dump()`: the six report fields, in declaration order. -/
def reportToDict (r : ResearchReport) : Dict :=
  [("title", .str r.title),
   ("summary", .str r.summary),
   ("key_findings", .arr (r.key_findings.map findingToDict)),
   ("sources", .arr (r.sources.map .str)),
   ("tags", .arr (r.tags.map .str)),
   ("methodology", .str r.methodology)]

/-- The `synthesize_node`: the structured-output LLM is an oracle producing a
`ResearchReport`; the node stores its dict dump and sets status
`synthesized`.  Returns (`report`, `status`). -/
def synthesize_node (llm_report : ResearchReport) : Option Dict × String :=
  (some (reportToDict llm_report), "synthesized")

/-- The review payload surfaced by review_node before its interrupt: the
report is attached when the state report is truthy (`ResearchReport(**report)
if report else None`). -/
def review_payload (report : Option Dict) : HITLPayload :=
  { hitl_type := "review"
    title := "Review Research Report"
    message := "Please review the research report below. You can approve it, edit it, or request a redo."
    report := if dictTruthy report then report else none
    options := some
      [{ id := "approve", label := "Approve", description := "Accept this report" },
       { id := "edit", label := "Edit", description := "Modify the report" },
       { id := "redo", label := "Redo", description := "Re-run the research" }] }

/-- The resume half of review_node.  The action defaults to `approve` when
the resume value is not a dict or lacks the key; `edit` with a truthy report
and truthy edits dict-updates the report; `redo` only sets the status.
`Except` models the `TypeError` Python would raise when `edits` is truthy but
not a dict.  Returns (`report`, `status`). -/
def review_resume (report : Option Dict) (user_response : PyVal) :
    Except String (Option Dict × String) :=
  let action : PyVal :=
    match user_response with
    | .obj fields => (fields.lookup "action").getD (.str "approve")
    | _ => .str "approve"
  let is_dict := match user_response with | .obj _ => true | _ => false
  if pyValIsStrEq action "edit" && is_dict then
    let edits : PyVal :=
      match user_response with
      | .obj fields => (fields.lookup "edits").getD (.obj [])
      | _ => .obj []
    if dictTruthy report && pyTruthy edits then
      match report, edits with
      | some r, .obj e => .ok (some (dictUpdate r e), "approved")
      | _, _ => .error "TypeError: report.update needs a dict of edits"
    else if pyValIsStrEq action "redo" then .ok (report, "redo")
    else .ok (report, "approved")
  else if pyValIsStrEq action "redo" then .ok (report, "redo")
  else .ok (report, "approved")

/-- LangGraph terminal pseudo-node. -/
def END : String := "__end__"

/-- The `should_continue_review`: redo loops back to orchestrate, anything else
ends the subgraph. -/
def should_continue_review (status : String) : String :=
  if status == "redo" then "orchestrate" else END

-- ## nodes.py: save_confirm_node

/-- Python list indexing `l[i]`, negative indices counting from the end;
`none` models the `IndexError` on out-of-range access. -/
def pyGet {α : Type} (l : List α) (i : Int) : Option α :=
  if i < 0 then
    let j := (l.length : Int) + i
    if j < 0 then none else l[j.toNat]?
  else
    l[i.toNat]?

/-- The `save_confirm_node` report selection: `idx = min(report_index,
len(reports) - 1)` then `reports[-(idx + 1))]` (reverse index, 0 = most
recent).  `none` covers the empty-reports short-circuit, which never reaches
this code. -/
def save_confirm_select (reports : List Dict) (report_index : Int) : Option Dict :=
  if reports.isEmpty then none
  else
    let idx := min report_index ((reports.length : Int) - 1)
    pyGet reports (-(idx + 1))

/-- The `tc["args"].get("report_index", 0)` for the `save_report` tool call in
the last message; integer-valued JSON numbers only. -/
def extract_report_index (messages : List Message) : Int :=
  match messages.getLast? with
  | none => 0
  | some last_message =>
    match last_message.tool_calls.find? (fun tc => tc.name == "save_report") with
    | none => 0
    | some tc =>
      match tc.args.lookup "report_index" with
      | some (.num q) => if q.den == 1 then q.num else 0
      | _ => 0

/-- The confirm payload surfaced by save_confirm_node before its interrupt.
`none` models the no-reports branch (a ToolMessage is appended, no suspension
and no payload) and the `IndexError` a negative out-of-range index would
raise before the payload is built. -/
def save_confirm_payload (reports : List Dict) (report_index : Int) :
    Option HITLPayload :=
  if reports.isEmpty then none
  else
    match save_confirm_select reports report_index with
    | none => none
    | some report =>
      some
        { hitl_type := "confirm"
          title := "Save Research Report"
          message := "Do you want to save this research report to the database?"
          report := some report
          options := some
            [{ id := "save", label := "Save", description := "Save report to database" },
             { id := "cancel", label := "Cancel", description := "Do not save" }] }

-- ## tools.py: calculator
--
-- `eval` restricted to the whitelisted characters is Python arithmetic over
-- ints and floats: `+ - * / // **`, unary signs, parentheses, and int/float
-- literals.  Floats are modelled by exact rationals (no rounding), which is
-- sound for every property stated below.

/-- A Python number: int or float (float as exact rational). -/
inductive PyNum where
  | int : Int → PyNum
  | float : Rat → PyNum

/-- Numeric value of a Python number. -/
def PyNum.toRat : PyNum → Rat
  | .int i => (i : Rat)
  | .float q => q

/-- Python `+` (int stays int; any float makes the result float). -/
def pyAdd (a b : PyNum) : PyNum :=
  match a, b with
  | .int x, .int y => .int (x + y)
  | _, _ => .float (a.toRat + b.toRat)

/-- Python binary `-`. -/
def pySub (a b : PyNum) : PyNum :=
  match a, b with
  | .int x, .int y => .int (x - y)
  | _, _ => .float (a.toRat - b.toRat)

/-- Python `*`. -/
def pyMul (a b : PyNum) : PyNum :=
  match a, b with
  | .int x, .int y => .int (x * y)
  | _, _ => .float (a.toRat * b.toRat)

/-- Python unary `-`. -/
def pyNeg : PyNum → PyNum
  | .int x => .int (-x)
  | .float q => .float (-q)

/-- Python `/` (true division, always float, `ZeroDivisionError` on a zero
divisor with the CPython messages). -/
def pyDiv (a b : PyNum) : Except String PyNum :=
  if b.toRat == 0 then
    match a, b with
    | .int _, .int _ => .error "division by zero"
    | _, _ => .error "float division by zero"
  else
    .ok (.float (a.toRat / b.toRat))

/-- Python `//` (floor division; int when both operands are int). -/
def pyFloorDiv (a b : PyNum) : Except String PyNum :=
  match a, b with
  | .int x, .int y =>
    if y == 0 then .error "integer division or modulo by zero"
    else .ok (.int (Int.fdiv x y))
  | _, _ =>
    if b.toRat == 0 then .error "float floor division by zero"
    else .ok (.float ((Rat.floor (a.toRat / b.toRat) : Int) : Rat))

/-- Python `**`.  A negative exponent turns an int base into a float; zero
cannot be raised to a negative power.  Non-integer float exponents (square
roots etc.) leave the rational model and are mapped to an error; no theorem
below depends on them. -/
def pyPow (a b : PyNum) : Except String PyNum :=
  match a, b with
  | .int x, .int y =>
    if 0 ≤ y then .ok (.int (x ^ y.toNat))
    else if x == 0 then .error "0.0 cannot be raised to a negative power"
    else .ok (.float ((x : Rat) ^ y))
  | _, _ =>
    if (b.toRat).den == 1 then
      if a.toRat == 0 && (b.toRat).num < 0 then
        .error "0.0 cannot be raised to a negative power"
      else .ok (.float (a.toRat ^ (b.toRat).num))
    else .error "model: non-integer exponent outside the rational model"

/-- Tokens of the restricted expression language. -/
inductive Tok where
  | num : PyNum → Tok
  | plus | minus | star | slash | dstar | dslash | lparen | rparen

/-- Digit characters to a natural number (callers guarantee digits only). -/
def digitsToNat (cs : List Char) : Nat :=
  cs.foldl (fun n c => 10 * n + (c.toNat - 48)) 0

/-- A maximal run of digits and dots as a Python numeric literal: no dot
gives an int, one dot a float (`5.`, `.5` allowed, `.` alone not), more dots
a `SyntaxError`. -/
def numLit (cs : List Char) : Except String PyNum :=
  let dots := cs.count '.'
  if dots == 0 then .ok (.int (digitsToNat cs))
  else if dots == 1 then
    let a := cs.takeWhile (fun c => !(c == '.'))
    let b := (cs.dropWhile (fun c => !(c == '.'))).drop 1
    if a.isEmpty && b.isEmpty then .error "SyntaxError: invalid decimal literal"
    else .ok (.float ((digitsToNat a : Rat) + (digitsToNat b : Rat) / ((10 : Rat) ^ b.length)))
  else .error "SyntaxError: invalid decimal literal"

/-- Is this character part of a numeric literal? -/
def isNumChar (c : Char) : Bool := c.isDigit || c == '.'

/-- Tokenizer (fuel-indexed; the fuel is an upper bound on the number of
steps, each step consumes at least one character). -/
def tokenizeAux : Nat → List Char → Except String (List Tok)
  | 0, _ => .error "model: tokenizer fuel exhausted"
  | _, [] => .ok []
  | fuel + 1, c :: rest =>
    if c == ' ' then tokenizeAux fuel rest
    else if c == '+' then (Tok.plus :: ·) <$> tokenizeAux fuel rest
    else if c == '-' then (Tok.minus :: ·) <$> tokenizeAux fuel rest
    else if c == '(' then (Tok.lparen :: ·) <$> tokenizeAux fuel rest
    else if c == ')' then (Tok.rparen :: ·) <$> tokenizeAux fuel rest
    else if c == '*' then
      match rest with
      | '*' :: rest2 => (Tok.dstar :: ·) <$> tokenizeAux fuel rest2
      | _ => (Tok.star :: ·) <$> tokenizeAux fuel rest
    else if c == '/' then
      match rest with
      | '/' :: rest2 => (Tok.dslash :: ·) <$> tokenizeAux fuel rest2
      | _ => (Tok.slash :: ·) <$> tokenizeAux fuel rest
    else if isNumChar c then do
      let v ← numLit ((c :: rest).takeWhile isNumChar)
      let ts ← tokenizeAux fuel ((c :: rest).dropWhile isNumChar)
      .ok (.num v :: ts)
    else .error "SyntaxError: invalid character"

/-- Tokenize an expression string. -/
def tokenize (s : String) : Except String (List Tok) :=
  tokenizeAux (s.length + 1) s.toList

-- Recursive-descent evaluation following the Python expression grammar:
-- sums over products over unary signs over right-associative power over
-- atoms.  Fuel-indexed; fuel exhaustion is a (never exercised) model error.

mutual

/-- Sums: `term ((plus or minus) term)*`. -/
def parseE : Nat → List Tok → Except String (PyNum × List Tok)
  | 0, _ => .error "model: fuel exhausted"
  | fuel + 1, toks => do
    let (v, rest) ← parseT fuel toks
    parseEL fuel v rest

/-- Left fold of the remaining `+`/`-` operands onto `acc`. -/
def parseEL : Nat → PyNum → List Tok → Except String (PyNum × List Tok)
  | 0, _, _ => .error "model: fuel exhausted"
  | fuel + 1, acc, toks =>
    match toks with
    | .plus :: rest => do
      let (v, rest2) ← parseT fuel rest
      parseEL fuel (pyAdd acc v) rest2
    | .minus :: rest => do
      let (v, rest2) ← parseT fuel rest
      parseEL fuel (pySub acc v) rest2
    | _ => .ok (acc, toks)

/-- Products: `unary ((star or slash or dslash) unary)*`. -/
def parseT : Nat → List Tok → Except String (PyNum × List Tok)
  | 0, _ => .error "model: fuel exhausted"
  | fuel + 1, toks => do
    let (v, rest) ← parseU fuel toks
    parseTL fuel v rest

/-- Left fold of the remaining `*`/`/`/`//` operands onto `acc`. -/
def parseTL : Nat → PyNum → List Tok → Except String (PyNum × List Tok)
  | 0, _, _ => .error "model: fuel exhausted"
  | fuel + 1, acc, toks =>
    match toks with
    | .star :: rest => do
      let (v, rest2) ← parseU fuel rest
      parseTL fuel (pyMul acc v) rest2
    | .slash :: rest => do
      let (v, rest2) ← parseU fuel rest
      let d ← pyDiv acc v
      parseTL fuel d rest2
    | .dslash :: rest => do
      let (v, rest2) ← parseU fuel rest
      let d ← pyFloorDiv acc v
      parseTL fuel d rest2
    | _ => .ok (acc, toks)

/-- Unary: `(plus or minus)* power`. -/
def parseU : Nat → List Tok → Except String (PyNum × List Tok)
  | 0, _ => .error "model: fuel exhausted"
  | fuel + 1, toks =>
    match toks with
    | .minus :: rest => do
      let (v, rest2) ← parseU fuel rest
      .ok (pyNeg v, rest2)
    | .plus :: rest => parseU fuel rest
    | _ => parseP fuel toks

/-- Power: `atom (dstar unary)?` (right-associative, binding the unary on the
right as in Python). -/
def parseP : Nat → List Tok → Except String (PyNum × List Tok)
  | 0, _ => .error "model: fuel exhausted"
  | fuel + 1, toks => do
    let (b, rest) ← parseAtom fuel toks
    match rest with
    | .dstar :: rest2 => do
      let (e, rest3) ← parseU fuel rest2
      let v ← pyPow b e
      .ok (v, rest3)
    | _ => .ok (b, rest)

/-- Atoms: a literal or a parenthesized sum. -/
def parseAtom : Nat → List Tok → Except String (PyNum × List Tok)
  | 0, _ => .error "model: fuel exhausted"
  | fuel + 1, toks =>
    match toks with
    | .num v :: rest => .ok (v, rest)
    | .lparen :: rest => do
      let (v, rest2) ← parseE fuel rest
      match rest2 with
      | .rparen :: rest3 => .ok (v, rest3)
      | _ => .error "SyntaxError: invalid syntax"
    | _ => .error "SyntaxError: invalid syntax"

end

/-- The `eval(expression)` on the whitelisted fragment. -/
def pyEvalExpr (s : String) : Except String PyNum := do
  let toks ← tokenize s
  let (v, rest) ← parseE (4 * toks.length + 8) toks
  if rest.isEmpty then .ok v else .error "SyntaxError: invalid syntax"

/-- The `str` of a float result.  Exactly-integral floats print as `n.0`; other
values are printed as exact fractions (CPython binary-float formatting is
outside the rational model, and no theorem depends on it). -/
def floatRepr (q : Rat) : String :=
  if q.den == 1 then toString q.num ++ ".0"
  else toString q.num ++ " over " ++ toString q.den

/-- The `str(result)`. -/
def pyRepr : PyNum → String
  | .int i => toString i
  | .float q => floatRepr q

/-- The `allowed_chars = set("0123456789+-*/.(). ")`. -/
def CALC_ALLOWED : List Char := "0123456789+-*/.(). ".toList

/-- The `calculator` from tools.py, parameterized by the evaluator so that the
reject-before-evaluate order is visible: the whitelist check decides the
result without consulting `ev` at all; only a fully whitelisted expression is
ever handed to the evaluator, whose failures become error strings. -/
def calculator_gen (ev : String → Except String PyNum) (expression : String) : String :=
  if expression.toList.all (fun c => CALC_ALLOWED.contains c) then
    match ev expression with
    | .ok v => pyRepr v
    | .error e => "Error evaluating expression: " ++ e
  else
    "Error: Invalid characters in expression. Only basic arithmetic is supported."

/-- The `calculator` with the real evaluator plugged in. -/
def calculator (expression : String) : String :=
  calculator_gen pyEvalExpr expression

-- ## Specification-side definition for the clarify resume policy

/-- The clarify resume policy as the specification words it (for comparison
with `clarify_resume`): when the resume value is a list, the clarified topics
are the labels of the suggested options whose ids appear in it, except that
an empty selection falls back to all suggested sub-topics; a non-list resume
value also yields all suggested sub-topics; ids matching no option are
ignored. -/
def clarify_resume_spec (subtopics : List String) (v : PyVal) : List String :=
  match v with
  | .arr ids =>
    let chosen :=
      ((clarify_options subtopics).filter fun opt =>
        ids.any fun x => pyValIsStrEq x opt.id).map (·.label)
    if chosen.isEmpty then subtopics else chosen
  | _ => subtopics

-- # Theorems

-- ## Association-list lemmas used for the report-edit frame property

/-- Lookup in the overwrite half of `dictUpdate`: keys of `d` keep their
first occurrence, with the value replaced when `e` knows the key. -/
theorem lookup_map_update (d e : Dict) (k : String) :
    (d.map fun kv =>
      match e.lookup kv.1 with
      | some v => (kv.1, v)
      | none => kv).lookup k
      = (d.lookup k).map fun v => (e.lookup k).getD v := by
  induction d with
  | nil => simp
  | cons hd tl ih =>
    obtain ⟨k1, v1⟩ := hd
    cases he : e.lookup k1 <;>
      simp only [List.map_cons, he, List.lookup_cons] <;>
      cases hk : k == k1 <;>
      · first
        | simpa using ih
        | (have : k = k1 := by simpa using hk
           subst this
           simp [he])

/-- Lookup in the append half of `dictUpdate`: keys of `e` not occurring in
`d` are found, keys occurring in `d` are filtered away. -/
theorem lookup_filter_isNone (e d : Dict) (k : String) :
    (e.filter fun kv => (d.lookup kv.1).isNone).lookup k
      = if (d.lookup k).isNone then e.lookup k else none := by
  induction e with
  | nil => simp
  | cons hd tl ih =>
    obtain ⟨k2, v2⟩ := hd
    by_cases hk : k = k2
    · subst hk
      cases hd : (d.lookup k).isNone <;> simp [List.filter_cons, hd, List.lookup_cons, ih]
    · have hk' : (k == k2) = false := by simpa using hk
      cases hd : (d.lookup k2).isNone <;>
        simp [List.filter_cons, hd, List.lookup_cons, hk', ih]

/-- Lookup after a Python dict update: `e` wins where it knows the key,
otherwise `d` answers. -/
theorem dictUpdate_lookup (d e : Dict) (k : String) :
    (dictUpdate d e).lookup k = (e.lookup k).or (d.lookup k) := by
  rw [dictUpdate, List.lookup_append, lookup_map_update, lookup_filter_isNone]
  cases hd : d.lookup k <;> cases he : e.lookup k <;> simp [hd, he]

-- ## C1: should_continue priority routing

/-- C1: for every conversation state whose last message carries tool calls,
`should_continue` routes by priority: any `deep_research` call wins, else any
`save_report` call, else real-tool execution; with no tool calls it routes to
the terminal branch.  In particular a turn with both a sentinel and a
non-sentinel call routes to the sentinel. -/
theorem should_continue_priority (s : AgentState) (m : Message)
    (hlast : s.messages.getLast? = some m) :
    (m.tool_calls ≠ [] →
      ((∃ tc ∈ m.tool_calls, tc.name = "deep_research") →
          should_continue s = some "deep_research")
      ∧ ((∀ tc ∈ m.tool_calls, tc.name ≠ "deep_research") →
          (∃ tc ∈ m.tool_calls, tc.name = "save_report") →
          should_continue s = some "save_confirm")
      ∧ ((∀ tc ∈ m.tool_calls, tc.name ≠ "deep_research" ∧ tc.name ≠ "save_report") →
          should_continue s = some "tools"))
    ∧ (m.tool_calls = [] → should_continue s = some "end") := by
  constructor
  · intro hne
    have hisEmpty : m.tool_calls.isEmpty = false := by
      simpa [List.isEmpty_iff] using hne
    refine ⟨?_, ?_, ?_⟩
    · intro hdr
      simp [should_continue, hlast, hisEmpty, hdr]
    · intro hnodr hsr
      have h1 : ¬∃ tc ∈ m.tool_calls, tc.name = "deep_research" := by
        rintro ⟨tc, htc, hname⟩
        exact hnodr tc htc hname
      simp [should_continue, hlast, hisEmpty, h1, hsr]
    · intro hnone
      have h1 : ¬∃ tc ∈ m.tool_calls, tc.name = "deep_research" := by
        rintro ⟨tc, htc, hname⟩
        exact (hnone tc htc).1 hname
      have h2 : ¬∃ tc ∈ m.tool_calls, tc.name = "save_report" := by
        rintro ⟨tc, htc, hname⟩
        exact (hnone tc htc).2 hname
      simp [should_continue, hlast, hisEmpty, h1, h2]
  · intro hempty
    simp [should_continue, hlast, hempty]

/-- Witness for C1: a turn calling both the `deep_research` sentinel and the
real `calculator` tool routes to the research branch. -/
theorem should_continue_priority_witness :
    should_continue
      { messages :=
          [{ role := "ai", content := ""
             tool_calls :=
               [{ name := "calculator", id := "tc1", args := [] },
                { name := "deep_research", id := "tc2", args := [] }] }]
        research_reports := []
        pending_save := none }
      = some "deep_research" := by
  have h := should_continue_priority
    { messages :=
        [{ role := "ai", content := ""
           tool_calls :=
             [{ name := "calculator", id := "tc1", args := [] },
              { name := "deep_research", id := "tc2", args := [] }] }]
      research_reports := []
      pending_save := none }
    { role := "ai", content := ""
      tool_calls :=
        [{ name := "calculator", id := "tc1", args := [] },
         { name := "deep_research", id := "tc2", args := [] }] }
    rfl
  exact (h.1 (by simp)).1
    ⟨{ name := "deep_research", id := "tc2", args := [] }, by simp, rfl⟩

-- ## C2: orchestrate instruction count

/-- C2: the number of explorer instructions produced by `orchestrate_node`
equals `min(len(clarified_topics), depthWidth(depth))`, provided the
structured-output collaborator returns at least that many instructions (the
prompt asks for exactly that many); the depth-width mapping is quick=3,
standard=5, deep=8, and any unknown depth label defaults to 5. -/
theorem orchestrate_count (clarified_topics : List String) (depth : String)
    (llm_instructions : List ExplorerInstruction)
    (h : min clarified_topics.length (depthWidth depth) ≤ llm_instructions.length) :
    (orchestrate_node clarified_topics depth llm_instructions).1.length
        = min clarified_topics.length (depthWidth depth)
    ∧ depthWidth "quick" = 3 ∧ depthWidth "standard" = 5 ∧ depthWidth "deep" = 8
    ∧ (∀ d, d ≠ "quick" → d ≠ "standard" → d ≠ "deep" → depthWidth d = 5) := by
  refine ⟨?_, rfl, rfl, rfl, ?_⟩
  · simp only [orchestrate_node, List.length_take]
    exact Nat.min_eq_left h
  · intro d h1 h2 h3
    have e1 : (d == "quick") = false := by simpa using h1
    have e2 : (d == "standard") = false := by simpa using h2
    have e3 : (d == "deep") = false := by simpa using h3
    simp [depthWidth, DEPTH_MAP, List.lookup_cons, e1, e2, e3]

/-- Witness for C2: two clarified topics at depth `quick` (width 3) with an
oracle returning two instructions yield exactly `min 2 3 = 2` instructions. -/
theorem orchestrate_count_witness :
    (orchestrate_node ["a", "b"] "quick"
      [{ query := "q1", search_focus := "f1", context := "" },
       { query := "q2", search_focus := "f2", context := "" }]).1.length
      = min (["a", "b"] : List String).length (depthWidth "quick") :=
  (orchestrate_count ["a", "b"] "quick"
    [{ query := "q1", search_focus := "f1", context := "" },
     { query := "q2", search_focus := "f2", context := "" }] (by decide)).1

-- ## C3: calculator whitelist and evaluation

/-- C3: any expression containing a character outside the whitelist is
rejected with the invalid-characters error string regardless of the
evaluator (so nothing is ever evaluated); a whitelisted expression that fails
to evaluate, such as `10 / 0`, yields an error string rather than an
unhandled exception; and `2 + 3 * 4` evaluates to the string `14`. -/
theorem calculator_whitelist_then_eval :
    (∀ (ev : String → Except String PyNum) (expression : String),
      (∃ c ∈ expression.toList, CALC_ALLOWED.contains c = false) →
      calculator_gen ev expression
        = "Error: Invalid characters in expression. Only basic arithmetic is supported.")
    ∧ calculator "10 / 0" = "Error evaluating expression: division by zero"
    ∧ calculator "2 + 3 * 4" = "14" := by
  refine ⟨?_, rfl, rfl⟩
  intro ev expression h
  obtain ⟨c, hc, hfalse⟩ := h
  rw [calculator_gen, if_neg]
  intro hall
  rw [List.all_eq_true] at hall
  have := hall c hc
  rw [hfalse] at this
  exact Bool.false_ne_true this

/-- Witness for C3: the non-whitelisted input `abc` is rejected with the
invalid-characters message, independent of the evaluator. -/
theorem calculator_whitelist_then_eval_witness :
    calculator_gen pyEvalExpr "abc"
      = "Error: Invalid characters in expression. Only basic arithmetic is supported." :=
  calculator_whitelist_then_eval.1 pyEvalExpr "abc" ⟨'a', by decide, by decide⟩

-- ## C4: empty clarify selection is fail-open

/-- C4: resuming the clarify suspension with an empty list of selected ids
treats every suggested sub-topic as selected: the clarified topics are the
full suggestion list (fail-open). -/
theorem clarify_resume_empty_selects_all (subtopics : List String) :
    clarify_resume subtopics (PyVal.arr []) = (subtopics, "clarified") := by
  simp [clarify_resume]

-- ## C5: save-confirm index resolution

/-- C5: for a non-empty oldest-first report list and requested index `i ≥ 0`,
the selected report is the `(i+1)`-th most recent one, with `i` clamped to
the last available index when it exceeds the bounds — so selection never
fails; concretely, with reports `A, B, C` (oldest to newest) index 0 resolves
to `C` and index 5 resolves to `A`. -/
theorem save_confirm_index_resolution (reports : List Dict) (i : Int)
    (hne : reports ≠ []) (hi : 0 ≤ i) :
    save_confirm_select reports i
        = reports.reverse[min i.toNat (reports.length - 1)]?
    ∧ (save_confirm_select reports i).isSome = true
    ∧ (∀ A B C : Dict, save_confirm_select [A, B, C] 0 = some C
        ∧ save_confirm_select [A, B, C] 5 = some A) := by
  have hlen : 0 < reports.length := List.length_pos.mpr hne
  have hisEmpty : reports.isEmpty = false := by simpa [List.isEmpty_iff] using hne
  have hmain : save_confirm_select reports i
      = reports.reverse[min i.toNat (reports.length - 1)]? := by
    have hk : min i.toNat (reports.length - 1) < reports.length := by omega
    rw [List.getElem?_reverse hk]
    simp only [save_confirm_select, pyGet, hisEmpty, Bool.false_eq_true, if_false]
    have hidx : ¬ (-(min i ((reports.length : Int) - 1) + 1) ≥ 0) := by omega
    rw [if_pos (by omega)]
    have hj : ¬ ((reports.length : Int) + -(min i ((reports.length : Int) - 1) + 1) < 0) := by
      omega
    rw [if_neg hj]
    congr 1
    omega
  refine ⟨hmain, ?_, ?_⟩
  · rw [hmain]
    have hk : min i.toNat (reports.length - 1) < reports.reverse.length := by
      simp only [List.length_reverse]
      omega
    simp [List.getElem?_eq_getElem hk]
  · intro A B C
    constructor <;> rfl

/-- Witness for C5: with three one-field reports the theorem applies at
index 0 and yields the newest report. -/
theorem save_confirm_index_resolution_witness :
    save_confirm_select
      [[("title", PyVal.str "A")], [("title", PyVal.str "B")], [("title", PyVal.str "C")]] 0
      = some [("title", PyVal.str "C")] :=
  ((save_confirm_index_resolution
      [[("title", PyVal.str "A")], [("title", PyVal.str "B")], [("title", PyVal.str "C")]] 0
      (by simp) (by norm_num)).2.2
    [("title", PyVal.str "A")] [("title", PyVal.str "B")] [("title", PyVal.str "C")]).1

-- ## C6: review redo/approve/edit routing

/-- C6: resuming the review suspension with action `redo` yields status
`redo` and the post-review router transitions to `orchestrate` (not
`clarify`); resuming with action `approve` or `edit` yields status `approved`
and the router reaches the terminal state. -/
theorem review_action_routing (report : Option Dict) (fields : Dict) :
    (fields.lookup "action" = some (PyVal.str "redo") →
      review_resume report (.obj fields) = .ok (report, "redo")
      ∧ should_continue_review "redo" = "orchestrate")
    ∧ (fields.lookup "action" = some (PyVal.str "approve") →
      review_resume report (.obj fields) = .ok (report, "approved")
      ∧ should_continue_review "approved" = END)
    ∧ (fields.lookup "action" = some (PyVal.str "edit") →
      ∀ r2 st, review_resume report (.obj fields) = .ok (r2, st) →
        st = "approved" ∧ should_continue_review st = END) := by
  refine ⟨?_, ?_, ?_⟩
  · intro h
    constructor
    · simp [review_resume, h, pyValIsStrEq]
    · rfl
  · intro h
    constructor
    · simp [review_resume, h, pyValIsStrEq]
    · rfl
  · intro h r2 st hok
    simp only [review_resume, h, Option.getD_some, pyValIsStrEq] at hok
    rw [show (("edit" == "edit") = true) from rfl] at hok
    rw [show (("edit" == "redo") = false) from rfl] at hok
    simp only [Bool.and_true, Bool.true_and, if_true, Bool.false_eq_true, if_false] at hok
    constructor
    · split at hok
      · split at hok
        · simp only [Except.ok.injEq, Prod.mk.injEq] at hok
          exact hok.2.symm
        · exact absurd hok (by simp)
      · simp only [Except.ok.injEq, Prod.mk.injEq] at hok
        exact hok.2.symm
    · split at hok
      · split at hok
        · simp only [Except.ok.injEq, Prod.mk.injEq] at hok
          rw [← hok.2]
          rfl
        · exact absurd hok (by simp)
      · simp only [Except.ok.injEq, Prod.mk.injEq] at hok
        rw [← hok.2]
        rfl

/-- Witness for C6: a concrete redo resume with a one-field report keeps the
report, sets status `redo`, and routes back to `orchestrate`. -/
theorem review_action_routing_witness :
    review_resume (some [("title", PyVal.str "T")])
        (.obj [("action", PyVal.str "redo")])
      = .ok (some [("title", PyVal.str "T")], "redo")
    ∧ should_continue_review "redo" = "orchestrate" :=
  (review_action_routing (some [("title", PyVal.str "T")])
    [("action", PyVal.str "redo")]).1 rfl

-- ## C7: review edit is a shallow field-level merge

/-- C7: resuming the review suspension with action `edit` and edits
`{title: x}` over a (non-empty) report dict yields an approved report whose
`title` is `x` and whose every other field is unchanged: the edit path is a
shallow field-level merge of the supplied edits onto the report. -/
theorem review_edit_title_frame (r : Dict) (x : PyVal) (hr : r ≠ []) :
    ∃ r2 : Dict,
      review_resume (some r)
          (.obj [("action", PyVal.str "edit"), ("edits", PyVal.obj [("title", x)])])
        = .ok (some r2, "approved")
      ∧ r2.lookup "title" = some x
      ∧ ∀ k, k ≠ "title" → r2.lookup k = r.lookup k := by
  refine ⟨dictUpdate r [("title", x)], ?_, ?_, ?_⟩
  · have hisEmpty : r.isEmpty = false := by simpa [List.isEmpty_iff] using hr
    simp [review_resume, pyValIsStrEq, List.lookup_cons, dictTruthy, pyTruthy, hisEmpty]
  · rw [dictUpdate_lookup]
    simp [List.lookup_cons]
  · intro k hk
    rw [dictUpdate_lookup]
    have hkf : (k == "title") = false := by simpa using hk
    simp [List.lookup_cons, hkf]

/-- Witness for C7: editing the title of a two-field report changes the
title to `X` and leaves the summary untouched. -/
theorem review_edit_title_frame_witness :
    ∃ r2 : Dict,
      review_resume (some [("title", PyVal.str "T"), ("summary", PyVal.str "S")])
          (.obj [("action", PyVal.str "edit"), ("edits", PyVal.obj [("title", PyVal.str "X")])])
        = .ok (some r2, "approved")
      ∧ r2.lookup "title" = some (PyVal.str "X")
      ∧ r2.lookup "summary" = some (PyVal.str "S") := by
  obtain ⟨r2, h1, h2, h3⟩ := review_edit_title_frame
    [("title", PyVal.str "T"), ("summary", PyVal.str "S")] (PyVal.str "X") (by simp)
  refine ⟨r2, h1, h2, ?_⟩
  rw [h3 "summary" (by decide)]
  rfl

-- ## C8: explorer failures degrade to one synthetic result

/-- C8: when the web search of an explorer raises, the failure is converted into
exactly one synthetic result entry whose content describes the search error
(explorer_node is total: nothing propagates out of the fan-out unit). -/
theorem explorer_error_synthetic (query e : String) :
    explorer_node query (.raised e)
        = [{ url := "", title := query, content := "Search error: " ++ e, score := 0 }]
    ∧ (explorer_node query (.raised e)).length = 1 := by
  exact ⟨rfl, rfl⟩

-- ## C9: HITL payload validation invariant

/-- C9: every HITL payload the core constructs satisfies the validation
invariant: the clarify checkbox payload always carries an options list; the
review payload built on the output of synthesize always carries a report (the
synthesize oracle result is stored as a non-empty dict); the save-confirm
payload, which exists only when at least one report is available, always
carries a report (and its options). -/
theorem hitl_payload_invariant :
    (∀ topic subtopics,
      (clarify_payload topic subtopics).options.isSome = true
      ∧ (clarify_payload topic subtopics).hitl_type = "checkbox")
    ∧ (∀ llm_report : ResearchReport,
      (review_payload (synthesize_node llm_report).1).report.isSome = true
      ∧ (review_payload (synthesize_node llm_report).1).hitl_type = "review")
    ∧ (∀ reports i p, save_confirm_payload reports i = some p →
      p.report.isSome = true ∧ p.options.isSome = true ∧ p.hitl_type = "confirm")
    ∧ (∀ i, save_confirm_payload [] i = none) := by
  refine ⟨fun topic subtopics => ⟨rfl, rfl⟩, ?_, ?_, fun i => rfl⟩
  · intro llm_report
    exact ⟨rfl, rfl⟩
  · intro reports i p h
    simp only [save_confirm_payload] at h
    split at h
    · exact absurd h (by simp)
    · split at h
      · exact absurd h (by simp)
      · rw [Option.some.injEq] at h
        subst h
        exact ⟨rfl, rfl, rfl⟩

/-- Witness for C9: the confirm payload built from a single one-field report
at index 0 carries that report. -/
theorem hitl_payload_invariant_witness :
    save_confirm_payload [[("title", PyVal.str "A")]] 0
      = some
        { hitl_type := "confirm"
          title := "Save Research Report"
          message := "Do you want to save this research report to the database?"
          report := some [("title", PyVal.str "A")]
          options := some
            [{ id := "save", label := "Save", description := "Save report to database" },
             { id := "cancel", label := "Cancel", description := "Do not save" }] }
    ∧ (HITLPayload.report
        { hitl_type := "confirm"
          title := "Save Research Report"
          message := "Do you want to save this research report to the database?"
          report := some [("title", PyVal.str "A")]
          options := some
            [{ id := "save", label := "Save", description := "Save report to database" },
             { id := "cancel", label := "Cancel", description := "Do not save" }] }).isSome
      = true := by
  refine ⟨rfl, ?_⟩
  exact (hitl_payload_invariant.2.2.1 [[("title", PyVal.str "A")]] 0 _ rfl).1

-- ## C10: full characterization of the clarify resume policy

/-- C10: for every resume value, the clarified topics are exactly the labels
of the suggested options whose ids occur in the resume list; when that subset
is empty — in particular whenever the resume value is not a list at all — the
clarified topics are the full suggestion list, and unknown ids are silently
ignored.  Stated as: the resume function of the code agrees with the
specification-side policy `clarify_resume_spec` everywhere. -/
theorem clarify_resume_matches_spec (subtopics : List String) (v : PyVal) :
    (clarify_resume subtopics v).1 = clarify_resume_spec subtopics v := by
  cases v <;> simp [clarify_resume, clarify_resume_spec]

end DeepResearcher
